import Mathlib

/-!
Verification of the GEO analysis session lifecycle controller.

Shallow embedding of the session lifecycle code of the GEO frontend:

* the top-level `App` component (its `useState` fields and handlers
  `handleAnalysisStart`, `handleAnalysisSelect`, `handleNewAnalysis`,
  `handleResultsReady`, and the `fetchExistingResults` effect) — the
  Session Controller and Historical Resolver;
* the `AnalysisProgress` component (its status/results queries with
  `refetchInterval`, `enabled`, `retry: 3`, and its error effects) — the
  Polling Controller;
* the `ReanalyzeButton` mutation `onSuccess` handler together with the
  query-cache invalidation it performs — the Invalidation Notifier.

State updates that a single asynchronous continuation performs back to
back are modelled as one state transformation (React 18 batches them into
one commit; only the final field values are observable).
-/

namespace GEO

/-- Opaque session identifier ("session_id" strings from the backend). -/
abbrev SessionId := String

/-- Lifecycle values of the backend status response: the `status` field is
one of "running", "completed", "error" (zod enum in the shared schema). -/
inductive AnalysisLifecycle where
  | running
  | completed
  | error
deriving DecidableEq, BEq

/-- Status response shape from the shared schema (`analysisStatusSchema`):
session_id, status, progress (0..100, modelled as `Nat`; the UI displays
`Math.round(progress)`, the identity on naturals), current_step, error?. -/
structure AnalysisStatus where
  session_id : String
  status : AnalysisLifecycle
  progress : Nat
  current_step : String
  error : Option String
deriving DecidableEq

/-- Opaque result bundle (`AnalysisResults` in the schema). The lifecycle
controller never interprets its contents, only its presence; the payload
field keeps distinct bundles distinguishable. -/
structure AnalysisResults where
  payload : String
deriving DecidableEq

/-- Session row shown in the recent-analyses sidebar (the optional `hint`
of `selectExisting`); used only for the brand label, never for liveness. -/
structure AnalysisSession where
  session_id : String
  brand_name : String
  timestamp : String
  product_name : Option String
deriving DecidableEq

/-- The `useState` fields of the `App` component — the mutable state of the
Session Controller: `selectedBrand`, `selectedSessionId`, `analysisResults`,
`isAnalyzing`, `isFetchingResults`. -/
structure AppState where
  selectedBrand : Option String
  selectedSessionId : Option SessionId
  analysisResults : Option AnalysisResults
  isAnalyzing : Bool
  isFetchingResults : Bool
deriving DecidableEq

/-- The App state on first mount: every field starts `null`/`false`. -/
def initialApp : AppState :=
  { selectedBrand := none
    selectedSessionId := none
    analysisResults := none
    isAnalyzing := false
    isFetchingResults := false }

/-- Embeds `handleAnalysisStart` (the `startNew` entry path): store the new
session id, enter analyzing mode, clear results and the historical flag. -/
def handleAnalysisStart (sessionId : SessionId) (s : AppState) : AppState :=
  { s with selectedSessionId := some sessionId
           isAnalyzing := true
           analysisResults := none
           isFetchingResults := false }

/-- Embeds `handleAnalysisSelect` (the `selectExisting` entry path): reset
results and analyzing mode, store the new id, and adopt the hint's brand
when it is present, non-empty and differs from the current brand. -/
def handleAnalysisSelect (sessionId : SessionId) (analysis : Option AnalysisSession)
    (s : AppState) : AppState :=
  let s1 := { s with analysisResults := none
                     isAnalyzing := false
                     selectedSessionId := some sessionId }
  match analysis with
  | some a =>
      if a.brand_name ≠ "" ∧ some a.brand_name ≠ s.selectedBrand then
        { s1 with selectedBrand := some a.brand_name }
      else s1
  | none => s1

/-- Embeds `handleNewAnalysis` (the `reset()` operation): clear results,
session id, analyzing mode and the historical-fetch flag. -/
def handleNewAnalysis (s : AppState) : AppState :=
  { s with analysisResults := none
           selectedSessionId := none
           isAnalyzing := false
           isFetchingResults := false }

/-- Embeds `handleResultsReady` (the `onComplete` callback handed to
`AnalysisProgress`): store the bundle and leave analyzing mode. -/
def handleResultsReady (results : AnalysisResults) (s : AppState) : AppState :=
  { s with analysisResults := some results
           isAnalyzing := false
           isFetchingResults := false }

/-- Outcome of the resolver's `fetch(resultsUrl)` call: `ok` is a 2xx
response with a well-formed body; `httpError` is a received non-2xx
response (`!response.ok`); `netError` covers a rejected fetch or a body
that fails to parse (both land in the `catch` block). -/
inductive ProbeResult where
  | ok (bundle : AnalysisResults)
  | httpError (code : Nat)
  | netError
deriving DecidableEq

/-- A network request issued by the Historical Resolver, in issue order. -/
inductive ProbeRequest where
  | results (sid : SessionId)
  | status (sid : SessionId)
deriving DecidableEq

/-- The `finally` block of `fetchExistingResults`: it runs on every exit
path of the `try` (including the early `return` of the still-running
branch) and sets `isFetchingResults` and `isAnalyzing` to `false`. -/
def resolverFinally (s : AppState) : AppState :=
  { s with isFetchingResults := false, isAnalyzing := false }

/-- Embeds the `fetchExistingResults` async closure of the App's
historical-resolution effect, as one state transformation plus the list of
requests it issued, in order. `sid` is the `selectedSessionId` captured by
the closure when it was spawned; `statusResp` is the parsed body of the
status probe (`.error` when that fetch rejected or its body failed to
parse — the code never checks `statusResponse.ok`).

Paths of the source:
* results probe ok: `setAnalysisResults(results)`, then `finally`;
* results probe non-2xx, status body says running: `setIsAnalyzing(true)`,
  `setIsFetchingResults(false)`, early `return` — and then the `finally`
  block still runs and overwrites both flags with `false`;
* results probe non-2xx, any other status outcome: `throw`, caught by
  `catch` which keeps `analysisResults` at `null`, then `finally`;
* results probe rejected/malformed: straight to `catch`, no status probe. -/
def fetchExistingResults (sid : SessionId) (resultsResp : ProbeResult)
    (statusResp : Except Unit AnalysisStatus) (s : AppState) :
    AppState × List ProbeRequest :=
  match resultsResp with
  | .ok bundle =>
      (resolverFinally { s with analysisResults := some bundle }, [.results sid])
  | .httpError _ =>
      (match statusResp with
       | .ok st =>
           if st.status = AnalysisLifecycle.running then
             resolverFinally { s with isAnalyzing := true, isFetchingResults := false }
           else
             resolverFinally { s with analysisResults := none }
       | .error _ =>
           resolverFinally { s with analysisResults := none },
       [.results sid, .status sid])
  | .netError =>
      (resolverFinally { s with analysisResults := none }, [.results sid])

/-- Condition of the App's historical-resolution `useEffect`: a session is
selected, no new analysis is running, and no results are loaded yet. -/
def resolverEffectCondition (s : AppState) : Bool :=
  s.selectedSessionId.isSome && !s.isAnalyzing && s.analysisResults.isNone

/-- One full `selectExisting` resolution: `handleAnalysisSelect` runs, the
effect condition then holds by construction (results cleared, analyzing
false, id set), so the effect sets `isFetchingResults` and spawns
`fetchExistingResults` for the freshly selected id, which resolves with
the given probe outcomes. -/
def selectExistingRun (sid : SessionId) (hint : Option AnalysisSession)
    (resultsResp : ProbeResult) (statusResp : Except Unit AnalysisStatus)
    (s : AppState) : AppState × List ProbeRequest :=
  let s1 := handleAnalysisSelect sid hint s
  let s2 := { s1 with isFetchingResults := true }
  fetchExistingResults sid resultsResp statusResp s2

/-- The spec's ViewState enumeration. -/
inductive ViewState where
  | Idle
  | Submitting
  | Polling
  | ResolvingHistorical
  | Completed
  | Failed
deriving DecidableEq

/-- Render guard of the `AnalysisProgress` branch of the App: mounted (and
hence polling) exactly when `isAnalyzing && selectedSessionId &&
!analysisResults`. -/
def showsProgress (s : AppState) : Bool :=
  s.isAnalyzing && s.selectedSessionId.isSome && s.analysisResults.isNone

/-- Render guard of the "Loading historical results..." branch:
`isFetchingResults && !isAnalyzing`. -/
def showsHistoricalLoading (s : AppState) : Bool :=
  s.isFetchingResults && !s.isAnalyzing

/-- Render guard of the `AnalysisResults` branch: `analysisResults &&
selectedSessionId`. -/
def showsResults (s : AppState) : Bool :=
  s.analysisResults.isSome && s.selectedSessionId.isSome

/-- The spec ViewState derived from the App's boolean flags through the
render guards; states with no rendered branch map to `Idle` (the form or a
blank main area). -/
def viewState (s : AppState) : ViewState :=
  if showsProgress s then .Polling
  else if showsHistoricalLoading s then .ResolvingHistorical
  else if showsResults s then .Completed
  else .Idle

/-- C1: every `selectExisting` resolution issues the results probe first,
and when the results probe succeeds (2xx, well-formed body) the run issues
no status probe, stores the returned bundle, lands in ViewState
`Completed`, and starts no polling (`AnalysisProgress` is not mounted). -/
theorem selectExisting_probes_results_first (sid : SessionId)
    (hint : Option AnalysisSession) (resultsResp : ProbeResult)
    (statusResp : Except Unit AnalysisStatus) (s : AppState) :
    (selectExistingRun sid hint resultsResp statusResp s).2.head? =
      some (.results sid) ∧
    ∀ bundle, resultsResp = .ok bundle →
      (selectExistingRun sid hint resultsResp statusResp s).2 = [.results sid] ∧
      (selectExistingRun sid hint resultsResp statusResp s).1.analysisResults =
        some bundle ∧
      viewState (selectExistingRun sid hint resultsResp statusResp s).1 =
        .Completed ∧
      showsProgress (selectExistingRun sid hint resultsResp statusResp s).1 =
        false := by
  constructor
  · cases resultsResp <;>
      simp [selectExistingRun, fetchExistingResults]
  · rintro bundle rfl
    refine ⟨rfl, rfl, ?_, rfl⟩
    simp [selectExistingRun, fetchExistingResults, viewState, showsProgress,
      showsHistoricalLoading, showsResults, resolverFinally,
      handleAnalysisSelect]
    cases hint with
    | none => simp
    | some a =>
        by_cases h : a.brand_name ≠ "" ∧ some a.brand_name ≠ s.selectedBrand <;>
          simp [h]

/-- Witness for C1 at a concrete input. -/
theorem selectExisting_probes_results_first_witness :
    (selectExistingRun "s7" none (.ok ⟨"bundle7"⟩) (.error ()) initialApp).2 =
      [.results "s7"] ∧
    viewState (selectExistingRun "s7" none (.ok ⟨"bundle7"⟩) (.error ())
      initialApp).1 = .Completed :=
  ⟨(((selectExisting_probes_results_first "s7" none (.ok ⟨"bundle7"⟩)
      (.error ()) initialApp).2 ⟨"bundle7"⟩ rfl)).1,
   (((selectExisting_probes_results_first "s7" none (.ok ⟨"bundle7"⟩)
      (.error ()) initialApp).2 ⟨"bundle7"⟩ rfl)).2.2.1⟩

/-- The status body of Scenario 2 of the spec: a still-running job at 40%. -/
def runningStatusS2 : AnalysisStatus :=
  { session_id := "s2"
    status := .running
    progress := 40
    current_step := "Querying LLMs"
    error := none }

/-- The settled App state of Scenario 2: `selectExisting("s2")` where the
results probe returns HTTP 404 and the status probe reports running. -/
def scenario2Settled : AppState :=
  (selectExistingRun "s2" none (.httpError 404) (.ok runningStatusS2)
    initialApp).1

/-- C2 (code bug): on the resolver's still-running path the code sets
`isAnalyzing` to `true` and returns early, but the `finally` block then
unconditionally overwrites it with `false`, so the settled state renders
the form (`Idle`) instead of handing off to the Polling Controller: the
run of Scenario 2 ends with `isAnalyzing = false` and ViewState `Idle`,
not `Polling`. -/
theorem selectExisting_running_never_reaches_polling :
    scenario2Settled.isAnalyzing = false ∧
    viewState scenario2Settled = .Idle ∧
    viewState scenario2Settled ≠ .Polling := by
  refine ⟨rfl, rfl, by decide⟩

/-- Component state of `AnalysisProgress` (the Polling Controller): its
`showError` flag together with the observed state of its two queries —
latest successful status body, whether the status query has surfaced an
error, latest results body, whether the results query has surfaced an
error. -/
structure ProgressState where
  showError : Bool
  statusData : Option AnalysisStatus
  statusErrored : Bool
  resultsData : Option AnalysisResults
  resultsErrored : Bool
deriving DecidableEq

/-- `AnalysisProgress` state on mount: no data, no errors. -/
def initialProgress : ProgressState :=
  { showError := false
    statusData := none
    statusErrored := false
    resultsData := none
    resultsErrored := false }

/-- Embeds the status query's `refetchInterval` option: `false` (here
`none`) when the latest status body says completed or `showError` is set,
otherwise 2000 ms. -/
def statusRefetchInterval (st : ProgressState) : Option Nat :=
  if (match st.statusData with
      | some d => d.status = AnalysisLifecycle.completed
      | none => False : Bool) || st.showError
  then none else some 2000

/-- Embeds the status query's `enabled` option: `!!sessionId && !showError`. -/
def statusQueryEnabled (sessionId : String) (st : ProgressState) : Bool :=
  sessionId ≠ "" && !st.showError

/-- Embeds the results query's `enabled` option: `!!sessionId &&
status?.status === "completed" && !showError`. -/
def resultsQueryEnabled (sessionId : String) (st : ProgressState) : Bool :=
  sessionId ≠ "" &&
  (match st.statusData with
   | some d => d.status = AnalysisLifecycle.completed
   | none => False) &&
  !st.showError

/-- Embeds `const progress = status?.progress ?? 0` (the value the
component renders, via `Math.round` and the progress bar). -/
def displayedProgress (st : ProgressState) : Nat :=
  match st.statusData with
  | some d => d.progress
  | none => 0

/-- A successful status fetch for the current session key: the query's
data becomes the new body and its error state clears. -/
def acceptStatusSnapshot (st : ProgressState) (d : AnalysisStatus) : ProgressState :=
  { st with statusData := some d, statusErrored := false }

/-- Embeds the error effect of the status query: when `statusError` is set
and `showError` is not, set `showError` (and show the "Connection Error"
toast). -/
def applyStatusErrorEffect (st : ProgressState) : ProgressState :=
  if st.statusErrored && !st.showError then { st with showError := true } else st

/-- Embeds `hasError = (statusError || resultsError) && showError`, the
guard of the failure card — the component's `Failed` surface. -/
def progressHasError (st : ProgressState) : Bool :=
  (st.statusErrored || st.resultsErrored) && st.showError

/-- Retry loop of the query client (TanStack Query): an initial attempt,
and after each failure another attempt as long as retries remain.
`outcomes i` is the result of the i-th fetch of the status endpoint;
returns the number of fetches issued and the final result. With the
option `retry: 3` the loop starts with `retriesLeft = 3`: one initial
attempt plus up to three retries. -/
def retryLoop {α : Type} (outcomes : Nat → Except Unit α) :
    Nat → Nat → Nat × Except Unit α
  | attemptIdx, retriesLeft =>
    match outcomes attemptIdx with
    | .ok a => (attemptIdx + 1, .ok a)
    | .error e =>
      match retriesLeft with
      | 0 => (attemptIdx + 1, .error e)
      | n + 1 => retryLoop outcomes (attemptIdx + 1) n

/-- Retry option of both queries of `AnalysisProgress` in the source:
`retry: 3`. -/
def statusRetryLimit : Nat := 3

/-- One fetch cycle of the status query with its configured retries:
returns the component state it produces and the number of status fetches
issued. A final success stores the body; exhausted retries surface the
query error. -/
def pollStatusOnce (outcomes : Nat → Except Unit AnalysisStatus)
    (st : ProgressState) : ProgressState × Nat :=
  match retryLoop outcomes 0 statusRetryLimit with
  | (n, .ok d) => (acceptStatusSnapshot st d, n)
  | (n, .error _) => ({ st with statusErrored := true }, n)

/-- A status endpoint whose every fetch fails at the transport level. -/
def alwaysFailStatus : Nat → Except Unit AnalysisStatus := fun _ => .error ()

/-- Counterexample to C3 as stated: with a status endpoint that fails on
every attempt, the controller reaches its `Failed` surface only after 4
status fetches (the initial attempt plus the 3 retries of `retry: 3`),
not after 3. -/
theorem status_failure_attempts_not_three :
    (pollStatusOnce alwaysFailStatus initialProgress).2 = 4 ∧
    (pollStatusOnce alwaysFailStatus initialProgress).2 ≠ 3 ∧
    progressHasError
      (applyStatusErrorEffect (pollStatusOnce alwaysFailStatus initialProgress).1) =
      true := by
  refine ⟨rfl, by decide, rfl⟩

/-- C3 (amended): given a status endpoint that fails on every attempt, the
controller surfaces the connection failure (its `Failed` card) after
exactly 4 status fetches — the initial attempt plus the 3 retries of
`retry: 3` — never fewer, never more. -/
theorem status_failure_after_exactly_four_attempts
    (outcomes : Nat → Except Unit AnalysisStatus)
    (h : ∀ i, outcomes i = .error ()) (st : ProgressState) :
    (pollStatusOnce outcomes st).2 = 4 ∧
    (pollStatusOnce outcomes st).1.statusErrored = true ∧
    progressHasError (applyStatusErrorEffect (pollStatusOnce outcomes st).1) =
      true := by
  have hrun : retryLoop outcomes 0 statusRetryLimit = (4, .error ()) := by
    simp [statusRetryLimit, retryLoop, h 0, h 1, h 2, h 3]
  refine ⟨by simp [pollStatusOnce, hrun], by simp [pollStatusOnce, hrun], ?_⟩
  by_cases hse : st.showError <;>
    simp [pollStatusOnce, hrun, progressHasError, applyStatusErrorEffect, hse]

/-- Witness for the amended C3 at the concrete always-failing endpoint. -/
theorem status_failure_after_exactly_four_attempts_witness :
    (pollStatusOnce alwaysFailStatus initialProgress).2 = 4 ∧
    (pollStatusOnce alwaysFailStatus initialProgress).1.statusErrored = true ∧
    progressHasError
      (applyStatusErrorEffect (pollStatusOnce alwaysFailStatus initialProgress).1) =
      true :=
  status_failure_after_exactly_four_attempts alwaysFailStatus (fun _ => rfl)
    initialProgress

/-- A status body reporting lifecycle "error" with a service message. -/
def erroredSnapshot : AnalysisStatus :=
  { session_id := "s9"
    status := .error
    progress := 50
    current_step := "Querying LLMs"
    error := some "analysis failed upstream" }

/-- C4 (code bug): after the Polling Controller accepts a status body with
lifecycle "error", its `refetchInterval` is still 2000 ms (only
"completed" or `showError` stop it), no error effect fires
(`applyStatusErrorEffect` is the identity here), its `Failed` surface
stays hidden, and the results query stays disabled — the component keeps
polling forever instead of stopping and failing with the service message. -/
theorem errored_lifecycle_keeps_polling :
    statusRefetchInterval (acceptStatusSnapshot initialProgress erroredSnapshot) =
      some 2000 ∧
    applyStatusErrorEffect (acceptStatusSnapshot initialProgress erroredSnapshot) =
      acceptStatusSnapshot initialProgress erroredSnapshot ∧
    progressHasError (acceptStatusSnapshot initialProgress erroredSnapshot) =
      false ∧
    (acceptStatusSnapshot initialProgress erroredSnapshot).showError = false ∧
    resultsQueryEnabled "s9"
      (acceptStatusSnapshot initialProgress erroredSnapshot) = false := by
  refine ⟨rfl, rfl, rfl, rfl, by decide⟩

/-- C7: after any sequence of accepted (non-stale) status snapshots, the
displayed progress value is exactly the `progress` field of the last
accepted snapshot — whatever the earlier values were, so also when the
wire value regresses — and before any snapshot is accepted it is 0. -/
theorem displayed_progress_is_last_accepted (st : ProgressState)
    (snaps : List AnalysisStatus) :
    displayedProgress (snaps.foldl acceptStatusSnapshot st) =
      (snaps.getLast?.map AnalysisStatus.progress).getD (displayedProgress st) ∧
    displayedProgress initialProgress = 0 := by
  refine ⟨?_, rfl⟩
  induction snaps generalizing st with
  | nil => rfl
  | cons a t ih =>
      cases t with
      | nil => rfl
      | cons b t' =>
          simpa [List.getLast?_cons_cons] using ih (acceptStatusSnapshot st a)

/-- C10: the results query of the Polling Controller is enabled only when
the latest accepted status body has lifecycle "completed" and no failure
has been surfaced (`showError` unset); while disabled it never fetches. -/
theorem results_query_gated_on_completed (sessionId : String)
    (st : ProgressState) (h : resultsQueryEnabled sessionId st = true) :
    (∃ d, st.statusData = some d ∧ d.status = AnalysisLifecycle.completed) ∧
    st.showError = false := by
  simp only [resultsQueryEnabled, Bool.and_eq_true] at h
  obtain ⟨⟨-, hmid⟩, herr⟩ := h
  refine ⟨?_, by simpa using herr⟩
  cases hd : st.statusData with
  | none => rw [hd] at hmid; simp at hmid
  | some d =>
      rw [hd] at hmid
      exact ⟨d, rfl, by simpa using hmid⟩

/-- A completed status body used by the C10 witness. -/
def completedSnapshot : AnalysisStatus :=
  { session_id := "s8"
    status := .completed
    progress := 100
    current_step := "Done"
    error := none }

/-- Witness for C10 at a concrete enabled state. -/
theorem results_query_gated_on_completed_witness :
    (∃ d, (acceptStatusSnapshot initialProgress completedSnapshot).statusData =
        some d ∧ d.status = AnalysisLifecycle.completed) ∧
    (acceptStatusSnapshot initialProgress completedSnapshot).showError = false :=
  results_query_gated_on_completed "s8"
    (acceptStatusSnapshot initialProgress completedSnapshot) (by decide)

/-- An in-flight `fetchExistingResults` closure: the session id it
captured at spawn time and the outcomes its two probes will resolve with.
The source installs no abort and no cleanup for this effect, so a pending
closure always runs to completion against whatever the App state is at
resolution time. -/
structure PendingResolve where
  sessionId : SessionId
  resultsResp : ProbeResult
  statusResp : Except Unit AnalysisStatus

/-- A terminal Completed surface produced by a resolver closure calling
`setAnalysisResults(bundle)`: the session the bundle belongs to (the
closure's captured id), the session id that was current when the closure
resolved, and the bundle. -/
structure Emission where
  forSession : SessionId
  currentSession : Option SessionId
  bundle : AnalysisResults
deriving DecidableEq

/-- The App together with its in-flight resolver closures and the log of
terminal Completed emissions. -/
structure World where
  app : AppState
  pending : List PendingResolve
  emissions : List Emission

/-- The world on first mount. -/
def initialWorld : World :=
  { app := initialApp, pending := [], emissions := [] }

/-- Events of the single-threaded event queue: the three entry-point
handlers, the historical-resolution effect firing (spawning a closure for
the currently selected id with the given probe outcomes), and the oldest
in-flight closure resolving. -/
inductive AppEvent where
  | select (sid : SessionId) (hint : Option AnalysisSession)
  | startNew (sid : SessionId)
  | reset
  | effectFire (resultsResp : ProbeResult) (statusResp : Except Unit AnalysisStatus)
  | resolveOldest

/-- One step of the event queue. `effectFire` follows the source effect:
it runs only when its condition holds, sets `isFetchingResults` and spawns
the closure capturing the selected id. `resolveOldest` runs the oldest
pending closure against the current App state — the source has no
session-tag check at any of its mutation sites — and logs a Completed
emission when the closure's results probe succeeded. -/
def stepEvent (w : World) : AppEvent → World
  | .select sid hint => { w with app := handleAnalysisSelect sid hint w.app }
  | .startNew sid => { w with app := handleAnalysisStart sid w.app }
  | .reset => { w with app := handleNewAnalysis w.app }
  | .effectFire resultsResp statusResp =>
      match w.app.selectedSessionId with
      | some sid =>
          if resolverEffectCondition w.app then
            { w with app := { w.app with isFetchingResults := true },
                     pending := w.pending ++ [⟨sid, resultsResp, statusResp⟩] }
          else w
      | none => w
  | .resolveOldest =>
      match w.pending with
      | [] => w
      | c :: rest =>
          { app := (fetchExistingResults c.sessionId c.resultsResp c.statusResp w.app).1
            pending := rest
            emissions :=
              match c.resultsResp with
              | .ok b => w.emissions ++ [⟨c.sessionId, w.app.selectedSessionId, b⟩]
              | _ => w.emissions }

/-- Runs a sequence of events from a world. -/
def runTrace (w : World) (events : List AppEvent) : World :=
  events.foldl stepEvent w

/-- The result bundle of session "sA" in the C5 interleaving. -/
def bundleA : AnalysisResults := ⟨"bundleA"⟩

/-- C5 interleaving, up to the supersession: select "sA", its resolver
closure spawns (results probe will succeed with `bundleA`), then "sB" is
selected while that closure is still in flight, and "sB"'s own closure
spawns. -/
def staleWorldBeforeResolve : World :=
  runTrace initialWorld
    [.select "sA" none,
     .effectFire (.ok bundleA) (.error ()),
     .select "sB" none,
     .effectFire (.httpError 404) (.error ())]

/-- The same world after the stale closure for "sA" resolves. -/
def staleWorldAfterResolve : World :=
  stepEvent staleWorldBeforeResolve .resolveOldest

/-- C5 (code bug): a results probe issued while "sA" was current resolves
after the current session has changed to "sB", and — because
`fetchExistingResults` re-validates no session tag — it mutates the state
now associated with "sB": `analysisResults` flips from `none` to "sA"'s
bundle and the ViewState moves from `ResolvingHistorical` to `Completed`,
all while `selectedSessionId` is "sB". The stale response is not
discarded. -/
theorem stale_resolver_response_mutates_new_session_state :
    staleWorldBeforeResolve.app.selectedSessionId = some "sB" ∧
    staleWorldBeforeResolve.app.analysisResults = none ∧
    viewState staleWorldBeforeResolve.app = .ResolvingHistorical ∧
    staleWorldAfterResolve.app.selectedSessionId = some "sB" ∧
    staleWorldAfterResolve.app.analysisResults = some bundleA ∧
    viewState staleWorldAfterResolve.app = .Completed := by
  refine ⟨rfl, rfl, by decide, rfl, rfl, by decide⟩

/-- The result bundle of session "t1" in the C6 interleaving. -/
def bundleT1 : AnalysisResults := ⟨"bundleT1"⟩

/-- C6 interleaving: select "t1", its closure spawns, "t2" supersedes it,
then the stale closure resolves successfully. -/
def supersededEmissionWorld : World :=
  runTrace initialWorld
    [.select "t1" none,
     .effectFire (.ok bundleT1) (.error ()),
     .select "t2" none,
     .resolveOldest]

/-- C6 (code bug): the run emits a terminal Completed notification for
session "t1" at a moment when the current session is "t2" — a terminal
event for a superseded SessionId, which the claim forbids. -/
theorem terminal_emission_for_superseded_session :
    supersededEmissionWorld.emissions =
      [{ forSession := "t1", currentSession := some "t2", bundle := bundleT1 }] ∧
    some "t1" ≠ supersededEmissionWorld.app.selectedSessionId := by
  refine ⟨rfl, by decide⟩

/-- C8: `reset()` is idempotent — a second consecutive call changes
nothing — and after a reset the session id and stored bundle are cleared,
the ViewState is `Idle`, the polling component is unmounted (so its 2000
ms refetch timer no longer exists), and the historical-resolution effect
cannot fire again, so nothing schedules any further poll. -/
theorem reset_idempotent_and_quiescent (s : AppState) :
    handleNewAnalysis (handleNewAnalysis s) = handleNewAnalysis s ∧
    (handleNewAnalysis s).selectedSessionId = none ∧
    (handleNewAnalysis s).analysisResults = none ∧
    viewState (handleNewAnalysis s) = .Idle ∧
    showsProgress (handleNewAnalysis s) = false ∧
    resolverEffectCondition (handleNewAnalysis s) = false := by
  refine ⟨rfl, rfl, rfl, ?_, rfl, rfl⟩
  simp [viewState, showsProgress, showsHistoricalLoading, showsResults,
    handleNewAnalysis]

/-- One cached query of the shared query client: its key and whether it
has been marked stale. -/
structure CachedQuery where
  key : List String
  stale : Bool
deriving DecidableEq

/-- Partial key matching of `invalidateQueries`: a filter key matches every
cached query whose key starts with it, element by element. -/
def keyMatches : List String → List String → Bool
  | [], _ => true
  | _ :: _, [] => false
  | a :: as, b :: bs => a == b && keyMatches as bs

/-- Embeds `queryClient.invalidateQueries({ queryKey: filt })`: mark every
matching cached query stale; touch nothing else. -/
def invalidateQueries (filt : List String) (cache : List CachedQuery) :
    List CachedQuery :=
  cache.map fun q => if keyMatches filt q.key then { q with stale := true } else q

/-- Embeds the `onSuccess` handler of the re-analysis mutation in
`ReanalyzeButton`, as rendered from `AnalysisResults`: it shows a toast,
calls `onReanalyzeStart?.()` — which `AnalysisResults` wires to the App's
`onNewAnalysis`, i.e. `handleNewAnalysis` — and then invalidates the
query-key filters `["same-prompts-history"]`, `["recent-analyses"]` and
`["visibility-history"]`, in that order. -/
def reanalyzeOnSuccess (app : AppState) (cache : List CachedQuery) :
    AppState × List CachedQuery :=
  (handleNewAnalysis app,
   invalidateQueries ["visibility-history"]
     (invalidateQueries ["recent-analyses"]
       (invalidateQueries ["same-prompts-history"] cache)))

/-- The query keys the source registers while the results dashboard for
brand `brand` and session `sid` is on screen: the brand list, the
recent-analyses sidebar list, the two visibility-history charts and the
status/results queries (the time-series chart key starts with
"main-visibility-history", not "visibility-history"). -/
def activeQueries (brand sid : String) : List CachedQuery :=
  [⟨["brands"], false⟩,
   ⟨["recent-analyses", brand], false⟩,
   ⟨["main-visibility-history", brand, "", "false"], false⟩,
   ⟨["same-prompts-history", sid], false⟩,
   ⟨["/api/analysis/status", sid], false⟩,
   ⟨["/api/results", sid], false⟩]

/-- The App state in which the re-analyze button is clickable: a session
is selected and its results dashboard is shown. -/
def reanalyzeApp : AppState :=
  { selectedBrand := some "acme"
    selectedSessionId := some "sid1"
    analysisResults := some ⟨"bundle1"⟩
    isAnalyzing := false
    isFetchingResults := false }

/-- Counterexample to C9 as stated: a successful re-analysis mutation does
not leave the Session Controller's state unchanged — the `onReanalyzeStart`
callback the handler invokes is wired to the reset handler, which clears
the current SessionId and the stored bundle — and the visibility
time-series read group is not marked stale, because its live query key
starts with "main-visibility-history", which the filter
`["visibility-history"]` does not match. -/
theorem reanalyze_success_resets_controller_and_misses_chart :
    (reanalyzeOnSuccess reanalyzeApp (activeQueries "acme" "sid1")).1 ≠
      reanalyzeApp ∧
    (reanalyzeOnSuccess reanalyzeApp (activeQueries "acme" "sid1")).1.selectedSessionId
      = none ∧
    (reanalyzeOnSuccess reanalyzeApp (activeQueries "acme" "sid1")).1.analysisResults
      = none ∧
    (reanalyzeOnSuccess reanalyzeApp (activeQueries "acme" "sid1")).2 =
      [⟨["brands"], false⟩,
       ⟨["recent-analyses", "acme"], true⟩,
       ⟨["main-visibility-history", "acme", "", "false"], false⟩,
       ⟨["same-prompts-history", "sid1"], true⟩,
       ⟨["/api/analysis/status", "sid1"], false⟩,
       ⟨["/api/results", "sid1"], false⟩] := by
  exact ⟨by decide, rfl, rfl, by decide⟩

/-- C9 (amended): on every successful re-analysis mutation the handler's
invalidation step marks stale exactly the cached queries matched by the
three filters `["same-prompts-history"]`, `["recent-analyses"]` and
`["visibility-history"]` — the invalidation itself touches no controller
state — while the handler's `onReanalyzeStart` callback, as wired, resets
the Session Controller (`handleNewAnalysis`: SessionId and stored bundle
cleared, ViewState `Idle`). -/
theorem reanalyze_success_effects (app : AppState) (cache : List CachedQuery) :
    (reanalyzeOnSuccess app cache).1 = handleNewAnalysis app ∧
    (reanalyzeOnSuccess app cache).2 = cache.map fun q =>
      if keyMatches ["same-prompts-history"] q.key ||
         keyMatches ["recent-analyses"] q.key ||
         keyMatches ["visibility-history"] q.key
      then { q with stale := true } else q := by
  refine ⟨rfl, ?_⟩
  have hfun :
      ((fun q => if keyMatches ["visibility-history"] q.key then
          { q with stale := true } else q) ∘
       (fun q => if keyMatches ["recent-analyses"] q.key then
          { q with stale := true } else q) ∘
       (fun q : CachedQuery => if keyMatches ["same-prompts-history"] q.key then
          { q with stale := true } else q)) =
      fun q : CachedQuery =>
        if keyMatches ["same-prompts-history"] q.key ||
           keyMatches ["recent-analyses"] q.key ||
           keyMatches ["visibility-history"] q.key
        then { q with stale := true } else q := by
    funext q
    by_cases h1 : keyMatches ["same-prompts-history"] q.key <;>
      by_cases h2 : keyMatches ["recent-analyses"] q.key <;>
        by_cases h3 : keyMatches ["visibility-history"] q.key <;>
          simp [Function.comp, h1, h2, h3]
  calc (reanalyzeOnSuccess app cache).2
      = cache.map (((fun q => if keyMatches ["visibility-history"] q.key then
            { q with stale := true } else q) ∘
          (fun q => if keyMatches ["recent-analyses"] q.key then
            { q with stale := true } else q) ∘
          (fun q : CachedQuery => if keyMatches ["same-prompts-history"] q.key then
            { q with stale := true } else q))) := by
        simp [reanalyzeOnSuccess, invalidateQueries, List.map_map]
    _ = _ := by rw [hfun]

end GEO
